import Mathlib

/-!
Verification of the kubetunnel tunnel-lifecycle orchestrator.

Shallow embedding of the Go sources:
  * `internal/cluster.go` — client registry (`InitClients`, `GetClient`),
    pod locator (`GetPodNameByLabel`), port-forward manager (`PortForward`),
    kubeconfig path resolution (`getKubeRestConfig`);
  * `internal/forward.go` — the site-level orchestrator `Forward` and the
    per-service bootstrap loop;
  * `cmd/root.go` — the session-level `run` loop.

Go errors are modelled as their message strings (`fmt.Errorf` becomes string
concatenation, `%w` wrapping inlines the wrapped message).  Effectful
collaborators (building a rest.Config, creating a Clientset, listing pods,
running a tunnel bootstrap, the readiness of a port-forward) are passed in as
explicit oracle functions, so each embedded function is a pure function of its
inputs and those oracles.  Go maps with string keys are association lists whose
`insert` conses at the front; `List.lookup` then has exactly the
latest-write-wins semantics of a Go map assignment.
-/

namespace KubeTunnel

/-- `internal.Service` (config.go): per-service ports and onward endpoint. -/
structure Service where
  defaultPort : Nat
  localPort : Nat
  endpoint : String
  deriving DecidableEq, Repr

/-- `internal.Site` (config.go): one site's cluster context, proxy label
selector (field spelled `Porxy` in the source), namespace and service map. -/
structure Site where
  kubeContext : String
  porxy : String
  ns : String
  services : List (String × Service)
  deriving DecidableEq, Repr

/-- `internal.Config` (config.go): the site map parsed from sites.yaml. -/
structure Config where
  sites : List (String × Site)
  deriving DecidableEq, Repr

/-! ## Client registry (cluster.go lines 25-72)

The registry `clientMap : map[string]*kubernetes.Clientset` is an association
list `List (String × Nat)`: a client handle is a `Nat` identifying the
`*kubernetes.Clientset` pointer returned by `kubernetes.NewForConfig`.  Since
`NewForConfig` allocates a fresh object on every successful call, client
creation threads a `fresh` counter and hands out distinct ids, which lets the
embedding observe whether a map entry was overwritten by a later insert. -/

/-- Registry state: the association list backing `clientMap` plus the fresh-id
counter for newly constructed clientsets. -/
abbrev Registry := List (String × Nat)

/-- `InitClients` (cluster.go lines 41-60).  For each context in order:
resolve its client config (`getKubeRestConfig`, oracle `getCfg`), construct a
clientset (`kubernetes.NewForConfig`; oracle `newOk` says whether construction
fails, the fresh counter names the new clientset), insert into the map, and
abort on the first failure with a wrapped error naming that context.
Returns the final (registry, fresh counter) state and the error. -/
def InitClients (getCfg : String → Except String Nat) (newOk : Nat → Option String)
    (reg : Registry) (fresh : Nat) :
    List String → (Registry × Nat) × Option String
  | [] => ((reg, fresh), none)
  | ctx :: rest =>
    match getCfg ctx with
    | .error e =>
        ((reg, fresh), some ("failed to get client config for context " ++ ctx ++ ": " ++ e))
    | .ok rc =>
      match newOk rc with
      | some e =>
          ((reg, fresh), some ("failed to create client for context " ++ ctx ++ ": " ++ e))
      | none => InitClients getCfg newOk ((ctx, fresh) :: reg) (fresh + 1) rest

/-- `GetClient` (cluster.go lines 63-72): read-only registry lookup. -/
def GetClient (reg : Registry) (ctx : String) : Except String Nat :=
  match reg.lookup ctx with
  | none => .error ("client for context " ++ ctx ++ " not initialized")
  | some c => .ok c

/-! ## Site-level orchestrator `Forward` (forward.go lines 14-70) -/

/-- The aggregated error built at forward.go lines 58-66:
`"some services failed to start tunnels (K/N): e1; e2; ..."` where `K` is the
number of per-service failures and `N` the number of requested services. -/
def aggErrMsg (errs : List String) (total : Nat) : String :=
  "some services failed to start tunnels (" ++ toString errs.length ++ "/"
    ++ toString total ++ "): " ++ String.intercalate "; " errs

/-- The per-service loop of `Forward` (forward.go lines 33-56).  For each
requested service, in request order: an unknown name is recorded as a failure
(`continue`), otherwise `startTunnel` (oracle, returning a stop-handle id or an
error message) is attempted and its outcome appended to the successes or the
failures.  Every element of the request list is processed; no failure stops
the loop. -/
def forwardLoop (site : String) (siteCfg : Site)
    (startTunnel : Site → Nat → Nat → String → Except String Nat) :
    List String → List Nat × List String
  | [] => ([], [])
  | svc :: rest =>
    match siteCfg.services.lookup svc with
    | none =>
        let r := forwardLoop site siteCfg startTunnel rest
        (r.1, ("service " ++ svc ++ " not found in site " ++ site ++ " configuration") :: r.2)
    | some sc =>
      match startTunnel siteCfg sc.localPort sc.defaultPort sc.endpoint with
      | .error e =>
          let r := forwardLoop site siteCfg startTunnel rest
          (r.1, ("failed to start tunnel for service " ++ svc ++ ": " ++ e) :: r.2)
      | .ok h =>
          let r := forwardLoop site siteCfg startTunnel rest
          (h :: r.1, r.2)

/-- `Forward` (forward.go lines 14-70).  Looks up the site, rejects an empty
`kubeContext`, initializes the client for the site's context via `InitClients`
(fail-fast), then runs the per-service loop and aggregates failures.  Returns
the successful stop-handle ids and the error (`none` = Go `nil`); the early
failure paths return the empty handle list (Go's `nil` slice). -/
def Forward (cfg : Config) (getCfg : String → Except String Nat) (newOk : Nat → Option String)
    (reg : Registry) (fresh : Nat)
    (startTunnel : Site → Nat → Nat → String → Except String Nat)
    (site : String) (services : List String) : List Nat × Option String :=
  match cfg.sites.lookup site with
  | none => ([], some ("site " ++ site ++ " not found in configuration"))
  | some siteCfg =>
    if siteCfg.kubeContext = "" then
      ([], some ("kubeContext not found for site " ++ site))
    else
      match (InitClients getCfg newOk reg fresh [siteCfg.kubeContext]).2 with
      | some e =>
          ([], some ("failed to initialize clients for context " ++ siteCfg.kubeContext ++ ": " ++ e))
      | none =>
        let r := forwardLoop site siteCfg startTunnel services
        if r.2.isEmpty then (r.1, none)
        else (r.1, some (aggErrMsg r.2 services.length))

/-- Every requested service is processed by the loop and contributes exactly
one outcome: successes and failures partition the request list. -/
theorem forwardLoop_length (site : String) (siteCfg : Site)
    (st : Site → Nat → Nat → String → Except String Nat) (services : List String) :
    (forwardLoop site siteCfg st services).1.length
      + (forwardLoop site siteCfg st services).2.length = services.length := by
  induction services with
  | nil => rfl
  | cons svc rest ih =>
    simp only [forwardLoop]
    split
    · simp only [List.length_cons]; omega
    · split <;> simp only [List.length_cons] <;> omega

/-- A concrete demo site used by the witnesses below: context `ctx`, one
configured service `a`. -/
def demoSite : Site := ⟨"ctx", "app=proxy", "demo", [("a", ⟨200, 100, "db"⟩)]⟩

/-- A concrete demo configuration with the single site `s1`. -/
def demoCfg : Config := ⟨[("s1", demoSite)]⟩

/-- Oracle: resolving a client config always succeeds (rest.Config id 0). -/
def demoGetCfg : String → Except String Nat := fun _ => .ok 0

/-- Oracle: resolving a client config always fails. -/
def demoGetCfgBad : String → Except String Nat := fun _ => .error "no such context"

/-- Oracle: `kubernetes.NewForConfig` always succeeds. -/
def demoNewOk : Nat → Option String := fun _ => none

/-- Oracle: every tunnel bootstrap succeeds with stop-handle id 7. -/
def demoStart : Site → Nat → Nat → String → Except String Nat := fun _ _ _ _ => .ok 7

/-- C1: on a configured site whose client initialization succeeds, `Forward`
attempts every requested service (successes and failures partition the N
requested services), returns exactly N−K stop handles when K services fail at
any stage (unknown names included), returns the aggregated `(K/N)` error
exactly when K > 0, and returns a non-empty success set whenever K < N even
alongside a non-nil error. -/
theorem Forward_partial_success
    (cfg : Config) (getCfg : String → Except String Nat) (newOk : Nat → Option String)
    (reg : Registry) (fresh : Nat)
    (st : Site → Nat → Nat → String → Except String Nat)
    (site : String) (services : List String) (siteCfg : Site)
    (hsite : cfg.sites.lookup site = some siteCfg)
    (hctx : siteCfg.kubeContext ≠ "")
    (hinit : (InitClients getCfg newOk reg fresh [siteCfg.kubeContext]).2 = none) :
    (Forward cfg getCfg newOk reg fresh st site services).1.length
        = services.length - (forwardLoop site siteCfg st services).2.length
    ∧ (forwardLoop site siteCfg st services).1.length
        + (forwardLoop site siteCfg st services).2.length = services.length
    ∧ (Forward cfg getCfg newOk reg fresh st site services).2
        = (if (forwardLoop site siteCfg st services).2.length = 0 then none
           else some (aggErrMsg (forwardLoop site siteCfg st services).2 services.length))
    ∧ ((forwardLoop site siteCfg st services).2.length < services.length →
        (Forward cfg getCfg newOk reg fresh st site services).1 ≠ []) := by
  have hlen := forwardLoop_length site siteCfg st services
  have hfwd : Forward cfg getCfg newOk reg fresh st site services =
      ((forwardLoop site siteCfg st services).1,
        if (forwardLoop site siteCfg st services).2.length = 0 then none
        else some (aggErrMsg (forwardLoop site siteCfg st services).2 services.length)) := by
    cases hre : (forwardLoop site siteCfg st services).2 with
    | nil => simp [Forward, hsite, hinit, if_neg hctx, hre]
    | cons a l => simp [Forward, hsite, hinit, if_neg hctx, hre]
  have hfst : (Forward cfg getCfg newOk reg fresh st site services).1
      = (forwardLoop site siteCfg st services).1 := by rw [hfwd]
  have hsnd : (Forward cfg getCfg newOk reg fresh st site services).2
      = (if (forwardLoop site siteCfg st services).2.length = 0 then none
         else some (aggErrMsg (forwardLoop site siteCfg st services).2 services.length)) := by
    rw [hfwd]
  refine ⟨by rw [hfst]; omega, hlen, hsnd, ?_⟩
  intro hK
  have hp : 0 < (forwardLoop site siteCfg st services).1.length := by omega
  rw [hfst]
  exact List.ne_nil_of_length_pos hp

/-- Witness for C1: site `s1`, request `["a", "missing"]` (one known service,
one unknown); the theorem applies and yields 2 − K handles. -/
theorem Forward_partial_success_witness :
    demoCfg.sites.lookup "s1" = some demoSite
    ∧ demoSite.kubeContext ≠ ""
    ∧ (InitClients demoGetCfg demoNewOk [] 0 [demoSite.kubeContext]).2 = none
    ∧ (Forward demoCfg demoGetCfg demoNewOk [] 0 demoStart "s1" ["a", "missing"]).1.length
        = ["a", "missing"].length
            - (forwardLoop "s1" demoSite demoStart ["a", "missing"]).2.length :=
  ⟨rfl, by decide, rfl,
    (Forward_partial_success demoCfg demoGetCfg demoNewOk [] 0 demoStart "s1"
      ["a", "missing"] demoSite rfl (by decide) rfl).1⟩

/-- C4: when client initialization for the site's context fails, `Forward`
returns the empty (nil) handle list and a wrapped error naming the context;
the result is independent of the tunnel bootstrapper and of the requested
services, so no service bootstrap is attempted. -/
theorem Forward_initClients_failure
    (cfg : Config) (getCfg : String → Except String Nat) (newOk : Nat → Option String)
    (reg : Registry) (fresh : Nat) (site : String) (siteCfg : Site) (e : String)
    (hsite : cfg.sites.lookup site = some siteCfg)
    (hctx : siteCfg.kubeContext ≠ "")
    (hinit : (InitClients getCfg newOk reg fresh [siteCfg.kubeContext]).2 = some e) :
    ∀ (st : Site → Nat → Nat → String → Except String Nat) (services : List String),
      Forward cfg getCfg newOk reg fresh st site services =
        ([], some ("failed to initialize clients for context "
                    ++ siteCfg.kubeContext ++ ": " ++ e)) := by
  intro st services
  simp [Forward, hsite, if_neg hctx, hinit]

/-- Witness for C4: resolving the client config for `ctx` fails, so
`Forward` on site `s1` fails without attempting service `a`. -/
theorem Forward_initClients_failure_witness :
    demoCfg.sites.lookup "s1" = some demoSite
    ∧ demoSite.kubeContext ≠ ""
    ∧ (InitClients demoGetCfgBad demoNewOk [] 0 [demoSite.kubeContext]).2
        = some "failed to get client config for context ctx: no such context"
    ∧ Forward demoCfg demoGetCfgBad demoNewOk [] 0 demoStart "s1" ["a"]
        = ([], some ("failed to initialize clients for context ctx: "
                      ++ "failed to get client config for context ctx: no such context")) :=
  ⟨rfl, by decide, rfl,
    Forward_initClients_failure demoCfg demoGetCfgBad demoNewOk [] 0 "s1" demoSite
      "failed to get client config for context ctx: no such context" rfl (by decide) rfl
      demoStart ["a"]⟩

/-- C10: when the site exists but its `kubeContext` is empty, `Forward`
returns a nil handle slice and an error naming the site; the result is
independent of the client-building oracles, the registry and the tunnel
bootstrapper, so no client is initialized and no service is attempted. -/
theorem Forward_empty_kubeContext
    (cfg : Config) (site : String) (siteCfg : Site)
    (hsite : cfg.sites.lookup site = some siteCfg)
    (hctx : siteCfg.kubeContext = "") :
    ∀ (getCfg : String → Except String Nat) (newOk : Nat → Option String)
      (reg : Registry) (fresh : Nat)
      (st : Site → Nat → Nat → String → Except String Nat) (services : List String),
      Forward cfg getCfg newOk reg fresh st site services =
        ([], some ("kubeContext not found for site " ++ site)) := by
  intro getCfg newOk reg fresh st services
  simp [Forward, hsite, hctx]

/-- A demo site whose `kubeContext` is empty. -/
def demoSiteNoCtx : Site := ⟨"", "app=proxy", "demo", [("a", ⟨200, 100, "db"⟩)]⟩

/-- A demo configuration holding only the context-less site `s2`. -/
def demoCfgNoCtx : Config := ⟨[("s2", demoSiteNoCtx)]⟩

/-- Witness for C10: site `s2` has an empty `kubeContext`, so `Forward`
fails naming `s2` irrespective of the oracles. -/
theorem Forward_empty_kubeContext_witness :
    demoCfgNoCtx.sites.lookup "s2" = some demoSiteNoCtx
    ∧ demoSiteNoCtx.kubeContext = ""
    ∧ Forward demoCfgNoCtx demoGetCfg demoNewOk [] 0 demoStart "s2" ["a"]
        = ([], some "kubeContext not found for site s2") :=
  ⟨rfl, rfl,
    Forward_empty_kubeContext demoCfgNoCtx "s2" demoSiteNoCtx rfl rfl
      demoGetCfg demoNewOk [] 0 demoStart ["a"]⟩

/-! ## Registry claims: abort-on-failure and insert semantics -/

/-- The outcome of one iteration of the `InitClients` loop body for context
`ctx` (cluster.go lines 43-52): `none` when both the config resolution and
the clientset construction succeed, otherwise the wrapped error message the
loop returns for that context. -/
def initStepErr (getCfg : String → Except String Nat) (newOk : Nat → Option String)
    (ctx : String) : Option String :=
  match getCfg ctx with
  | .error e => some ("failed to get client config for context " ++ ctx ++ ": " ++ e)
  | .ok rc =>
    match newOk rc with
    | some e => some ("failed to create client for context " ++ ctx ++ ": " ++ e)
    | none => none

/-- When the loop body for `ctx` succeeds, `InitClients` inserts
`(ctx, fresh)` into the map and continues with the remaining contexts. -/
theorem InitClients_cons_ok (getCfg : String → Except String Nat)
    (newOk : Nat → Option String) (ctx : String)
    (h : initStepErr getCfg newOk ctx = none) (reg : Registry) (fresh : Nat)
    (rest : List String) :
    InitClients getCfg newOk reg fresh (ctx :: rest)
      = InitClients getCfg newOk ((ctx, fresh) :: reg) (fresh + 1) rest := by
  unfold initStepErr at h
  split at h
  · simp at h
  · rename_i rc hg
    split at h
    · simp at h
    · rename_i hn
      simp [InitClients, hg, hn]

/-- When the loop body for `ctx` fails, `InitClients` aborts immediately,
leaving the state untouched and returning that context's error. -/
theorem InitClients_cons_fail (getCfg : String → Except String Nat)
    (newOk : Nat → Option String) (ctx : String) (e : String)
    (h : initStepErr getCfg newOk ctx = some e) (reg : Registry) (fresh : Nat)
    (rest : List String) :
    InitClients getCfg newOk reg fresh (ctx :: rest) = ((reg, fresh), some e) := by
  unfold initStepErr at h
  split at h
  · rename_i e0 hg
    simp only [Option.some.injEq] at h
    simp [InitClients, hg, h]
  · rename_i rc hg
    split at h
    · rename_i e0 hn
      simp only [Option.some.injEq] at h
      simp [InitClients, hg, hn, h]
    · simp at h

/-- Registry entries survive every `InitClients` run: the map is only
inserted into, never deleted from, even when the run aborts mid-batch. -/
theorem InitClients_preserves_lookup (getCfg : String → Except String Nat)
    (newOk : Nat → Option String) :
    ∀ (ctxs : List String) (reg : Registry) (fresh : Nat) (c : String),
      (reg.lookup c).isSome →
      (((InitClients getCfg newOk reg fresh ctxs).1.1).lookup c).isSome := by
  intro ctxs
  induction ctxs with
  | nil => intro reg fresh c h; exact h
  | cons ctx rest ih =>
    intro reg fresh c h
    simp only [InitClients]
    split
    · exact h
    · split
      · exact h
      · apply ih
        simp only [List.lookup_cons]
        cases hc : c == ctx <;> simp [h]

/-- C6: `InitClients` on `pre ++ bad :: post`, where every context of `pre`
succeeds and `bad` fails, returns the state reached after processing exactly
the prefix `pre` together with `bad`'s wrapped error (so the error names the
offending context and the run never touches `post`), and every context of
`pre` remains registered in the returned registry. -/
theorem InitClients_abort_at_failure (getCfg : String → Except String Nat)
    (newOk : Nat → Option String) (bad : String) (e : String)
    (hbad : initStepErr getCfg newOk bad = some e) :
    ∀ (pre : List String) (reg : Registry) (fresh : Nat) (post : List String),
      (∀ c ∈ pre, initStepErr getCfg newOk c = none) →
      InitClients getCfg newOk reg fresh (pre ++ bad :: post)
        = ((InitClients getCfg newOk reg fresh pre).1, some e)
      ∧ ∀ c ∈ pre,
          (((InitClients getCfg newOk reg fresh (pre ++ bad :: post)).1.1).lookup c).isSome := by
  intro pre
  induction pre with
  | nil =>
    intro reg fresh post _
    refine ⟨?_, by simp⟩
    rw [List.nil_append, InitClients_cons_fail getCfg newOk bad e hbad reg fresh post]
    rfl
  | cons p ps ih =>
    intro reg fresh post hpre
    have hp : initStepErr getCfg newOk p = none := hpre p (List.mem_cons_self p ps)
    have hps : ∀ c ∈ ps, initStepErr getCfg newOk c = none :=
      fun c hc => hpre c (List.mem_cons_of_mem p hc)
    have hcons := InitClients_cons_ok getCfg newOk p hp reg fresh (ps ++ bad :: post)
    have hcons2 := InitClients_cons_ok getCfg newOk p hp reg fresh ps
    obtain ⟨ih1, ih2⟩ := ih ((p, fresh) :: reg) (fresh + 1) post hps
    constructor
    · rw [List.cons_append, hcons, ih1, hcons2]
    · intro c hc
      rw [List.cons_append, hcons]
      rcases List.mem_cons.mp hc with hcp | hcs
      · subst hcp
        apply InitClients_preserves_lookup
        simp [List.lookup_cons]
      · exact ih2 c hcs

/-- Oracle: the client config for context `bad` cannot be resolved; every
other context resolves fine. -/
def demoGetCfgMixed : String → Except String Nat :=
  fun c => if c = "bad" then .error "no such context" else .ok 0

/-- Witness for C6: batch `["good", "bad", "later"]`; the run aborts at `bad`
with its wrapped error, `later` is never processed, and `good` stays
registered. -/
theorem InitClients_abort_at_failure_witness :
    initStepErr demoGetCfgMixed demoNewOk "bad"
        = some "failed to get client config for context bad: no such context"
    ∧ InitClients demoGetCfgMixed demoNewOk [] 0 (["good"] ++ "bad" :: ["later"])
        = ((InitClients demoGetCfgMixed demoNewOk [] 0 ["good"]).1,
            some "failed to get client config for context bad: no such context")
    ∧ (((InitClients demoGetCfgMixed demoNewOk [] 0
          (["good"] ++ "bad" :: ["later"])).1.1).lookup "good").isSome :=
  ⟨by decide,
    (InitClients_abort_at_failure demoGetCfgMixed demoNewOk "bad"
      "failed to get client config for context bad: no such context" (by decide)
      ["good"] [] 0 ["later"] (by decide)).1,
    (InitClients_abort_at_failure demoGetCfgMixed demoNewOk "bad"
      "failed to get client config for context bad: no such context" (by decide)
      ["good"] [] 0 ["later"] (by decide)).2 "good" (by decide)⟩

/-- C8 counterexample: starting from an empty registry, initializing context
`ctx` registers clientset id 0; a second `InitClients` run for the same
context (exactly what `Forward` performs on every call, forward.go line 28)
overwrites the entry with the freshly constructed clientset id 1 — the
registered handle is replaced, refuting the claim that an entry's client
handle is never replaced by a later operation. -/
theorem clientMap_handle_replaced :
    (InitClients demoGetCfg demoNewOk [] 0 ["ctx"]).1.1.lookup "ctx" = some 0
    ∧ ((InitClients demoGetCfg demoNewOk
          (InitClients demoGetCfg demoNewOk [] 0 ["ctx"]).1.1
          (InitClients demoGetCfg demoNewOk [] 0 ["ctx"]).1.2 ["ctx"]).1.1).lookup "ctx"
        = some 1
    ∧ some (1 : Nat) ≠ some 0 :=
  ⟨rfl, rfl, by decide⟩

/-- C8 amended: the registry is never removed from — a registered context
stays registered across every further `InitClients` run, and a context outside
the processed batch keeps its exact handle — but re-initializing an
already-registered context replaces its handle with a freshly constructed
client (the counterexample above); `GetClient` is a pure lookup and changes
nothing. -/
theorem clientMap_additive_inserts (getCfg : String → Except String Nat)
    (newOk : Nat → Option String) :
    ∀ (ctxs : List String) (reg : Registry) (fresh : Nat) (c : String),
      ((reg.lookup c).isSome →
        (((InitClients getCfg newOk reg fresh ctxs).1.1).lookup c).isSome)
      ∧ (c ∉ ctxs →
        ((InitClients getCfg newOk reg fresh ctxs).1.1).lookup c = reg.lookup c) := by
  intro ctxs
  induction ctxs with
  | nil => intro reg fresh c; exact ⟨id, fun _ => rfl⟩
  | cons ctx rest ih =>
    intro reg fresh c
    constructor
    · intro h
      exact InitClients_preserves_lookup getCfg newOk (ctx :: rest) reg fresh c h
    · intro hc
      have hne : c ≠ ctx := fun h => hc (by simp [h])
      have hrest : c ∉ rest := fun h => hc (by simp [h])
      simp only [InitClients]
      split
      · rfl
      · split
        · rfl
        · rw [(ih ((ctx, fresh) :: reg) (fresh + 1) c).2 hrest]
          simp [List.lookup_cons, beq_false_of_ne hne]

/-- Witness for C8's amended theorem: a pre-registered context `old` survives
an `InitClients` run for the unrelated context `ctx` and keeps its handle. -/
theorem clientMap_additive_inserts_witness :
    ((([("old", 5)] : Registry).lookup "old").isSome : Prop)
    ∧ ("old" : String) ∉ ["ctx"]
    ∧ ((((InitClients demoGetCfg demoNewOk [("old", 5)] 0 ["ctx"]).1.1).lookup "old").isSome : Prop)
    ∧ ((InitClients demoGetCfg demoNewOk [("old", 5)] 0 ["ctx"]).1.1).lookup "old"
        = ([("old", 5)] : Registry).lookup "old" :=
  ⟨by decide, by decide,
    (clientMap_additive_inserts demoGetCfg demoNewOk ["ctx"] [("old", 5)] 0 "old").1 (by decide),
    (clientMap_additive_inserts demoGetCfg demoNewOk ["ctx"] [("old", 5)] 0 "old").2 (by decide)⟩

/-! ## Pod locator (cluster.go lines 74-89) -/

/-- `GetPodNameByLabel` (cluster.go lines 74-89).  `listPods client ns sel`
is the oracle for `client.CoreV1().Pods(namespace).List` with the label
selector, returning the names of the listed pods in the order the API
returned them. -/
def GetPodNameByLabel (reg : Registry)
    (listPods : Nat → String → String → Except String (List String))
    (kubectx ns labelSelector : String) : Except String String :=
  match GetClient reg kubectx with
  | .error e => .error ("failed to get client: " ++ e)
  | .ok client =>
    match listPods client ns labelSelector with
    | .error e => .error e
    | .ok pods =>
      match pods with
      | [] => .error ("no pods found with label " ++ labelSelector ++ " in namespace " ++ ns)
      | p :: _ => .ok p

/-- Claim C5: when the client is available and the listing call succeeds,
`GetPodNameByLabel` fails with a not-found error naming the label selector
and the namespace if the returned list is empty, and otherwise returns the
name of the first item of the list as the API returned it. -/
theorem GetPodNameByLabel_first_or_notFound (reg : Registry)
    (listPods : Nat → String → String → Except String (List String))
    (kubectx ns sel : String) (client : Nat) (pods : List String)
    (hcl : GetClient reg kubectx = .ok client)
    (hl : listPods client ns sel = .ok pods) :
    (pods = [] →
      GetPodNameByLabel reg listPods kubectx ns sel
        = .error ("no pods found with label " ++ sel ++ " in namespace " ++ ns))
    ∧ ∀ (p : String) (rest : List String), pods = p :: rest →
        GetPodNameByLabel reg listPods kubectx ns sel = .ok p := by
  constructor
  · intro h; subst h; simp [GetPodNameByLabel, hcl, hl]
  · intro p rest h; subst h; simp [GetPodNameByLabel, hcl, hl]

/-- Oracle: listing pods returns two pods, `pod-a` first. -/
def demoListPods : Nat → String → String → Except String (List String) :=
  fun _ _ _ => .ok ["pod-a", "pod-b"]

/-- Witness for C5: with two matching pods the locator returns the first
listed name `pod-a`. -/
theorem GetPodNameByLabel_first_or_notFound_witness :
    GetClient [("ctx", 0)] "ctx" = .ok 0
    ∧ demoListPods 0 "demo" "app=proxy" = .ok ["pod-a", "pod-b"]
    ∧ GetPodNameByLabel [("ctx", 0)] demoListPods "ctx" "demo" "app=proxy" = .ok "pod-a" :=
  ⟨rfl, rfl,
    (GetPodNameByLabel_first_or_notFound [("ctx", 0)] demoListPods "ctx" "demo" "app=proxy"
      0 ["pod-a", "pod-b"] rfl rfl).2 "pod-a" ["pod-b"] rfl⟩

/-! ## Port-forward manager (cluster.go lines 136-190) and its stop handle -/

/-- State of a Go channel that is only ever closed, never sent to. -/
inductive GoChan where
  | isOpen
  | isClosed
  deriving DecidableEq, Repr

/-- Go `close(ch)`: closing an open channel closes it; closing an
already-closed channel is a run-time panic, modelled as `none`. -/
def goClose : GoChan → Option GoChan
  | .isOpen => some .isClosed
  | .isClosed => none

/-- The stop capability returned on the success path of `PortForward`
(cluster.go line 185): `func() { close(stopChannel) }`, acting on the stop
channel's state. -/
def stopHandle : GoChan → Option GoChan := goClose

/-- Claim C2 fails on the code: the first invocation of the stop handle
closes the stop channel, and a second invocation runs Go `close` on the
already-closed channel, which panics instead of being an error-free no-op. -/
theorem stopHandle_second_invocation_panics :
    stopHandle GoChan.isOpen = some GoChan.isClosed
    ∧ (stopHandle GoChan.isOpen).bind stopHandle = none := by decide

/-- Environment of one `PortForward` call (cluster.go lines 136-190): the
outcomes of the four fallible setup steps (`GetClient`,
`getKubeRestConfig`, `spdy.RoundTripperFor`, `portforward.NewOnAddresses`),
and the second at which the forwarder signals readiness (`none` = never). -/
structure PFEnv where
  getClient : Except String Nat
  getCfg : Except String Nat
  roundTripper : Except String Nat
  newForwarder : Except String Nat
  readyAt : Option Nat

/-- The fixed readiness timeout (cluster.go line 186: `10 * time.Second`). -/
def pfTimeoutSeconds : Nat := 10

/-- Result of a `PortForward` call: whether a non-nil stop capability was
returned, the returned error, and whether the stop channel had been closed
(signalled) by the time the call returned. -/
structure PFResult where
  handle : Option Unit
  err : Option String
  stopClosed : Bool
  deriving DecidableEq, Repr

/-- `PortForward` (cluster.go lines 136-190).  After the setup steps, the
call blocks on `select` between the ready channel and a 10-second timer; a
tie at exactly the timeout instant is a scheduler race, resolved here in
favour of the timer. -/
def PortForward (env : PFEnv) : PFResult :=
  match env.getClient with
  | .error e => ⟨none, some ("failed to get client: " ++ e), false⟩
  | .ok _ =>
  match env.getCfg with
  | .error e => ⟨none, some ("failed to get config: " ++ e), false⟩
  | .ok _ =>
  match env.roundTripper with
  | .error e => ⟨none, some e, false⟩
  | .ok _ =>
  match env.newForwarder with
  | .error e => ⟨none, some e, false⟩
  | .ok _ =>
  match env.readyAt with
  | some t =>
    if t < pfTimeoutSeconds then ⟨some (), none, false⟩
    else ⟨none, some "timed out waiting for port forward to be ready", true⟩
  | none => ⟨none, some "timed out waiting for port forward to be ready", true⟩

/-- Whether readiness fires strictly before the 10-second timer. -/
def readyFires (env : PFEnv) : Bool :=
  match env.readyAt with
  | some t => decide (t < pfTimeoutSeconds)
  | none => false

/-- Claim C3: once the setup steps succeed, `PortForward` returns the non-nil
stop capability with a nil error exactly when readiness fires before the
timer; otherwise it closes (signals) the stop channel and returns a nil
handle with the timeout error; the timeout is the fixed 10 seconds; and no
call, on any environment, returns a handle alongside an error. -/
theorem PortForward_ready_or_timeout (env : PFEnv) (c k r f : Nat)
    (hc : env.getClient = .ok c) (hk : env.getCfg = .ok k)
    (hr : env.roundTripper = .ok r) (hf : env.newForwarder = .ok f) :
    (readyFires env = true → PortForward env = ⟨some (), none, false⟩)
    ∧ (readyFires env = false →
        PortForward env = ⟨none, some "timed out waiting for port forward to be ready", true⟩)
    ∧ pfTimeoutSeconds = 10
    ∧ ∀ env' : PFEnv, (PortForward env').handle.isSome → (PortForward env').err = none := by
  refine ⟨?_, ?_, rfl, ?_⟩
  · intro hready
    unfold readyFires at hready
    split at hready
    · rename_i t hra
      have ht : t < pfTimeoutSeconds := of_decide_eq_true hready
      simp [PortForward, hc, hk, hr, hf, hra, ht]
    · simp at hready
  · intro hready
    unfold readyFires at hready
    split at hready
    · rename_i t hra
      have ht : ¬ t < pfTimeoutSeconds := of_decide_eq_false hready
      simp [PortForward, hc, hk, hr, hf, hra, ht]
    · rename_i hra
      simp [PortForward, hc, hk, hr, hf, hra]
  · intro env' h
    revert h
    unfold PortForward
    repeat' split
    all_goals simp

/-- Environment where every setup step succeeds and readiness fires at once. -/
def demoPFEnvReady : PFEnv := ⟨.ok 0, .ok 0, .ok 0, .ok 0, some 0⟩

/-- Environment where every setup step succeeds but readiness never fires. -/
def demoPFEnvStuck : PFEnv := ⟨.ok 0, .ok 0, .ok 0, .ok 0, none⟩

/-- Witness for C3: a ready forward returns the handle with nil error; a
never-ready forward returns nil handle, the timeout error, and a signalled
stop channel. -/
theorem PortForward_ready_or_timeout_witness :
    demoPFEnvReady.getClient = .ok 0
    ∧ readyFires demoPFEnvReady = true
    ∧ readyFires demoPFEnvStuck = false
    ∧ PortForward demoPFEnvReady = ⟨some (), none, false⟩
    ∧ PortForward demoPFEnvStuck
        = ⟨none, some "timed out waiting for port forward to be ready", true⟩ :=
  ⟨rfl, rfl, rfl,
    (PortForward_ready_or_timeout demoPFEnvReady 0 0 0 0 rfl rfl rfl rfl).1 rfl,
    (PortForward_ready_or_timeout demoPFEnvStuck 0 0 0 0 rfl rfl rfl rfl).2.1 rfl⟩

/-! ## Session-level run loop (cmd/root.go) -/

/-- Which services `run` forwards for one site (root.go lines 144-157): the
`--services` flag when non-empty applies to every site; with no flag, all of
the site's configured services; `none` means the site is skipped because it
has no services. -/
def determineServices (servicesFlag : List String) (site : Site) : Option (List String) :=
  if servicesFlag.isEmpty then
    let names := site.services.map (·.1)
    if names.isEmpty then none else some names
  else some servicesFlag

/-- The fan-out collection of `run` (root.go lines 133-184): one task per
site name, each calling `Forward` (oracle `forward`) and merging the
returned stop handles into the shared list; unknown sites and sites without
services are skipped.  The goroutines' merge order is scheduler-dependent;
the model collects in site order, which the emptiness-based claim below does
not depend on. -/
def collectHandles (cfg : Config) (forward : String → List String → List Nat × Option String)
    (servicesFlag : List String) : List String → List Nat
  | [] => []
  | siteName :: rest =>
    match cfg.sites.lookup siteName with
    | none => collectHandles cfg forward servicesFlag rest
    | some site =>
      match determineServices servicesFlag site with
      | none => collectHandles cfg forward servicesFlag rest
      | some svcs => (forward siteName svcs).1 ++ collectHandles cfg forward servicesFlag rest

/-- Observable outcome of one `run` session (root.go lines 113-228): whether
the endpoint summary was printed, whether the session blocked awaiting an OS
signal, and the collected stop handles. -/
structure SessionResult where
  printedSummary : Bool
  awaitedSignal : Bool
  handles : List Nat
  deriving DecidableEq, Repr

/-- `run` (root.go lines 113-228): default the site list to all configured
sites, fan out `Forward` per site collecting stop handles behind the
`wg.Wait()` barrier, and — only when at least one tunnel is active — print
the endpoint summary and block awaiting an OS signal before invoking the
collected handles. -/
def runSession (cfg : Config) (forward : String → List String → List Nat × Option String)
    (args servicesFlag : List String) : SessionResult :=
  let sitesToUse := if args.isEmpty then cfg.sites.map (·.1) else args
  if sitesToUse.isEmpty then ⟨false, false, []⟩
  else
    let handles := collectHandles cfg forward servicesFlag sitesToUse
    if handles.isEmpty then ⟨false, false, handles⟩
    else ⟨true, true, handles⟩

/-- Claim C7: when the collection of stop handles after the fan-out barrier
is empty, the session returns immediately: it neither prints the endpoint
summary nor blocks awaiting an OS signal. -/
theorem runSession_empty_no_wait (cfg : Config)
    (forward : String → List String → List Nat × Option String)
    (args servicesFlag : List String)
    (h : collectHandles cfg forward servicesFlag
          (if args.isEmpty then cfg.sites.map (·.1) else args) = []) :
    (runSession cfg forward args servicesFlag).printedSummary = false
    ∧ (runSession cfg forward args servicesFlag).awaitedSignal = false := by
  have hr : runSession cfg forward args servicesFlag = ⟨false, false, []⟩ := by
    by_cases ha : args.isEmpty
    · rw [if_pos ha] at h
      simp [runSession, ha, h]
    · rw [if_neg ha] at h
      simp [runSession, ha, h]
  rw [hr]
  exact ⟨rfl, rfl⟩

/-- Oracle: `Forward` fails on every site, returning no handles. -/
def demoForwardFail : String → List String → List Nat × Option String :=
  fun _ _ => ([], some "boom")

/-- Witness for C7: every site attempt fails, the collection is empty, and
the session ends without printing a summary and without awaiting a signal. -/
theorem runSession_empty_no_wait_witness :
    collectHandles demoCfg demoForwardFail [] ["s1"] = []
    ∧ (runSession demoCfg demoForwardFail ["s1"] []).printedSummary = false
    ∧ (runSession demoCfg demoForwardFail ["s1"] []).awaitedSignal = false :=
  ⟨rfl,
    (runSession_empty_no_wait demoCfg demoForwardFail ["s1"] [] rfl).1,
    (runSession_empty_no_wait demoCfg demoForwardFail ["s1"] [] rfl).2⟩

/-! ## Kubeconfig path resolution (cluster.go lines 26 and 31-38) -/

/-- cluster.go line 26: `kubeConfig = filepath.Join(os.Getenv("HOME"),
".kube", "config")` — the kubeconfig path, derived from the process
environment. -/
def kubeConfigPath (env : String → String) : String :=
  env "HOME" ++ "/.kube/config"

/-- The loading rules built by `getKubeRestConfig` (cluster.go lines 31-38):
an explicit path pinned to `kubeConfigPath`. -/
structure ClientConfigLoadingRules where
  explicitPath : String
  deriving DecidableEq, Repr

/-- The overrides built by `getKubeRestConfig`: the requested context. -/
structure ConfigOverrides where
  currentContext : String
  deriving DecidableEq, Repr

/-- `getKubeRestConfig` (cluster.go lines 31-38), viewed as the loading rules
and overrides it hands the client-config loader.  Every credential load in
the program — `InitClients` for each context, and the per-operation loads in
`ExecPodCommand` and `PortForward` — goes through this one function. -/
def getKubeRestConfigRules (env : String → String) (kubectx : String) :
    ClientConfigLoadingRules × ConfigOverrides :=
  ({ explicitPath := kubeConfigPath env }, { currentContext := kubectx })

/-- Claim C9: every credential load resolves from the local file path
`<home>/.kube/config`, where `<home>` is the `HOME` value of the process
environment — the environment-derived default — and the path follows the
environment: setting `HOME` to any directory makes the loader read that
directory's `.kube/config`, so two different environments read two
different files. -/
theorem kubeConfigPath_default_and_overridable (env : String → String) (kubectx : String) :
    (getKubeRestConfigRules env kubectx).1.explicitPath = env "HOME" ++ "/.kube/config"
    ∧ (∀ h : String, kubeConfigPath (fun _ => h) = h ++ "/.kube/config")
    ∧ kubeConfigPath (fun _ => "/home/alice") ≠ kubeConfigPath (fun _ => "/home/bob") :=
  ⟨rfl, fun _ => rfl, by decide⟩

end KubeTunnel
